import Mathlib

/-!
Shallow embedding of the lpress-backend HTTP service (TypeScript/Express over
a PostgREST-style relational store) together with proofs about its behaviour.

Conventions of the embedding:
* a database table is a `List` of row structures, in insertion order;
* the PostgREST query-builder operations used by the controllers
  (`eq` filters, `order(..., descending)`, `range`/`limit` pagination,
  `select(count: exact, head: true)`, `.single()`, `insert`, `update`,
  `delete`) are modelled as pure list functions;
* `.single()` follows PostgREST semantics: it yields the row when the
  result set has exactly one row and an error object otherwise
  (error code PGRST116 for zero or several rows);
* a controller is a pure function from the request data and the current
  table(s) to an HTTP response paired with the resulting table(s);
* a thrown `AppError(message, statusCode)` is modelled as the response the
  centralized error handler produces for it.
-/

namespace LPress

/-- Modelled from the spec: the centralized error handler middleware
(`src/middleware/errorHandler`, imported by every controller but not present
under `src/`) converts a thrown `AppError(message, statusCode)` into the JSON
error envelope with the status code carried by the error object:
success `false` and the error's message. -/
structure HttpResponse where
  status : Nat
  success : Bool
  message : Option String
  deriving Repr, DecidableEq

/-- Response produced by the error handler for `throw new AppError(msg, code)`. -/
def appError (msg : String) (code : Nat) : HttpResponse :=
  { status := code, success := false, message := some msg }

/-- Plain success response with a status code and an optional message. -/
def okResponse (code : Nat) (msg : Option String) : HttpResponse :=
  { status := code, success := true, message := msg }

/-! ## Authentication gate (src/middleware/auth.ts) -/

/-- The three request header locations the admin gate inspects. -/
structure Headers where
  authorization : Option String
  xApiKey : Option String
  xAdminSecret : Option String
  deriving Repr, DecidableEq

/-- JavaScript `s.replace('Bearer ', '')`: removes the first occurrence of
the substring `"Bearer "` from `s` (not only a prefix). -/
def stripBearer (s : String) : String :=
  match s.splitOn "Bearer " with
  | [] => s
  | [x] => x
  | x :: rest => x ++ String.intercalate "Bearer " rest

/-- Outcome of an authentication middleware: pass control on, or answer
with a status code and message.  The middleware touches no store state;
it is a pure function of the request headers and the configuration. -/
inductive AuthDecision where
  | accept
  | reject (status : Nat) (message : String)
  deriving Repr, DecidableEq

/-- Fixed message of the admin gate's 401 response. -/
def adminUnauthorizedMessage : String :=
  "Unauthorized. Admin access required. Use x-admin-secret header with the secret key."

/-- Embedding of `authenticateServiceRole` (src/middleware/auth.ts, lines 4-23).
`config.adminSecretKey` is `process.env.ADMIN_SECRET_KEY`, hence possibly
absent (`none`).  JavaScript `===` on two `undefined` values is `true`,
which `Option` equality reproduces (`none = none`). -/
def authenticateServiceRole (adminSecretKey : Option String) (h : Headers) : AuthDecision :=
  let token := h.authorization.map stripBearer
  if token = adminSecretKey ∨ h.xApiKey = adminSecretKey ∨ h.xAdminSecret = adminSecretKey then
    .accept
  else
    .reject 401 adminUnauthorizedMessage

/-- C3: with a configured admin secret `s`, the gate accepts exactly when one
of the three header locations carries a credential equal to `s` (the
Authorization credential being the header value with its `Bearer ` scheme
marker removed), and any rejected request receives the fixed 401 response. -/
theorem admin_gate_accepts_iff_secret_matches (s : String) (h : Headers) :
    (authenticateServiceRole (some s) h = .accept ↔
      (h.authorization.map stripBearer = some s ∨
        h.xApiKey = some s ∨ h.xAdminSecret = some s)) ∧
    (authenticateServiceRole (some s) h = .accept ∨
      authenticateServiceRole (some s) h = .reject 401 adminUnauthorizedMessage) := by
  have hgate : authenticateServiceRole (some s) h =
      (if Option.map stripBearer h.authorization = some s ∨
          h.xApiKey = some s ∨ h.xAdminSecret = some s then
        AuthDecision.accept
      else AuthDecision.reject 401 adminUnauthorizedMessage) := rfl
  by_cases hc : (Option.map stripBearer h.authorization = some s ∨
      h.xApiKey = some s ∨ h.xAdminSecret = some s)
  · rw [hgate, if_pos hc]
    exact ⟨⟨fun _ => hc, fun _ => rfl⟩, Or.inl rfl⟩
  · rw [hgate, if_neg hc]
    exact ⟨⟨fun hcontra => AuthDecision.noConfusion hcontra,
      fun hcond => absurd hcond hc⟩, Or.inr rfl⟩

/-- C6: when `ADMIN_SECRET_KEY` is not configured (`config.adminSecretKey`
is `undefined`), a request carrying none of the three headers is accepted by
the admin gate: the absent token compares equal to the absent secret. -/
theorem admin_gate_accepts_when_secret_unconfigured :
    authenticateServiceRole none ⟨none, none, none⟩ = .accept := by
  rfl

/-! ## Resource store primitives (supabase-js / PostgREST semantics) -/

/-- PostgREST `.single()` as the supabase client surfaces it: a pair
`(error, data)`.  Exactly one row yields `(null, row)`; zero or several
rows yield an error object (code PGRST116) and `null` data. -/
def supaSingle {α : Type} (rows : List α) : Option String × Option α :=
  match rows with
  | [r] => (none, some r)
  | _ => (some "JSON object requested, multiple (or no) rows returned", none)

/-- Insertion into a descending-ordered list, by a numeric key. -/
def insertDescBy {α : Type} (key : α → Nat) (x : α) : List α → List α
  | [] => [x]
  | y :: ys => if key y ≤ key x then x :: y :: ys else y :: insertDescBy key x ys

/-- Result ordering `order(col, { ascending: false })`: sort descending by key. -/
def sortDescBy {α : Type} (key : α → Nat) : List α → List α
  | [] => []
  | x :: xs => insertDescBy key x (sortDescBy key xs)

/-- Pagination `range(offset, offset + limit - 1)` followed by `limit(limit)`:
the page of at most `limit` rows starting at `offset` of the ordered result. -/
def pageSlice {α : Type} (limit offset : Nat) (rows : List α) : List α :=
  (rows.drop offset).take limit

theorem mem_insertDescBy {α : Type} (key : α → Nat) (x a : α) (l : List α) :
    a ∈ insertDescBy key x l ↔ a = x ∨ a ∈ l := by
  induction l with
  | nil => simp [insertDescBy]
  | cons y ys ih =>
    by_cases hk : key y ≤ key x
    · simp [insertDescBy, hk]
    · simp [insertDescBy, hk, ih]
      tauto

theorem mem_sortDescBy {α : Type} (key : α → Nat) (a : α) (l : List α) :
    a ∈ sortDescBy key l ↔ a ∈ l := by
  induction l with
  | nil => simp [sortDescBy]
  | cons x xs ih => simp [sortDescBy, mem_insertDescBy, ih]

theorem mem_pageSlice {α : Type} (limit offset : Nat) (rows : List α) (a : α)
    (ha : a ∈ pageSlice limit offset rows) : a ∈ rows := by
  have h1 : a ∈ rows.drop offset := List.mem_of_mem_take ha
  exact List.mem_of_mem_drop h1

theorem length_insertDescBy {α : Type} (key : α → Nat) (x : α) (l : List α) :
    (insertDescBy key x l).length = l.length + 1 := by
  induction l with
  | nil => rfl
  | cons y ys ih =>
    by_cases hk : key y ≤ key x
    · simp [insertDescBy, hk]
    · simp [insertDescBy, hk, ih]

theorem length_sortDescBy {α : Type} (key : α → Nat) (l : List α) :
    (sortDescBy key l).length = l.length := by
  induction l with
  | nil => rfl
  | cons x xs ih => simp [sortDescBy, length_insertDescBy, ih]

/-! ## Row types -/

/-- Project row (table `projects`); `created_at` abstracted to a numeric
timestamp, `status` the stored text column. -/
structure Project where
  id : String
  created_at : Nat
  title : String
  description : String
  location : String
  status : String
  images : List String
  deriving Repr, DecidableEq

/-- News row (table `news`). -/
structure News where
  id : String
  created_at : Nat
  published_at : Nat
  title : String
  details : String
  event : String
  location : String
  images : List String
  deriving Repr, DecidableEq

/-- Newsletter subscriber row (table `newsletter_subscribers`; the store
schema declares `email TEXT NOT NULL UNIQUE`). -/
structure Subscriber where
  email : String
  subscribed : Bool
  created_at : Nat
  deriving Repr, DecidableEq

/-- Envelope of a list endpoint: HTTP status, `success`, `count`, `data`. -/
structure ListResponse (α : Type) where
  status : Nat
  success : Bool
  count : Nat
  data : List α
  deriving Repr, DecidableEq

/-! ## List controllers -/

/-- Optional `eq('status', status)` filter of the projects queries. -/
def filterProjectsByStatus (statusQ : Option String) (t : List Project) : List Project :=
  match statusQ with
  | none => t
  | some s => t.filter (fun r => r.status == s)

/-- Embedding of `getAllProjects` (src/controllers/projectController.ts,
lines 44-72): a dedicated count query (`count: exact, head: true`, same
optional status filter) provides `count`; the data query orders by
`created_at` descending and takes the `range`/`limit` page.
`totalCount || 0` is the identity here because the store's exact count of a
successful query is the number of matching rows. -/
def getAllProjects (t : List Project) (statusQ : Option String)
    (limit offset : Nat) : ListResponse Project :=
  let totalCount := (filterProjectsByStatus statusQ t).length
  let page := pageSlice limit offset
    (sortDescBy (fun r => r.created_at) (filterProjectsByStatus statusQ t))
  { status := 200, success := true, count := totalCount, data := page }

/-- Embedding of `getAllNews` (src/controllers/newsController.ts): an
unfiltered exact count query provides `count`; the data query orders by
`published_at` descending and takes the page. -/
def getAllNews (t : List News) (limit offset : Nat) : ListResponse News :=
  let totalCount := t.length
  let page := pageSlice limit offset (sortDescBy (fun r => r.published_at) t)
  { status := 200, success := true, count := totalCount, data := page }

/-- Optional `eq('subscribed', subscribed === 'true')` filter. -/
def filterSubscribers (subscribedQ : Option Bool) (t : List Subscriber) : List Subscriber :=
  match subscribedQ with
  | none => t
  | some b => t.filter (fun r => r.subscribed == b)

/-- Embedding of `getAllSubscribers` (src/controllers/subscriberController.ts,
lines 41-64): no count query is issued; the envelope's `count` is
`data?.length || 0`, the length of the returned page. -/
def getAllSubscribers (t : List Subscriber) (subscribedQ : Option Bool)
    (limit offset : Nat) : ListResponse Subscriber :=
  let page := pageSlice limit offset
    (sortDescBy (fun r => r.created_at) (filterSubscribers subscribedQ t))
  { status := 200, success := true, count := page.length, data := page }

/-- Concrete subscribers table with two subscribed rows. -/
def twoSubscriberTable : List Subscriber :=
  [⟨"a@example.com", true, 2⟩, ⟨"b@example.com", true, 1⟩]

/-- C1, counterexample: the subscribers list operation is a list operation of
a resource controller, yet with two rows matching `subscribed=true` and
`limit=1` its envelope reports `count = 1` — the page length — not the
server-side total `2`, and `count` equals `data.length` although the
matching rows exceed the page. -/
theorem subscribers_count_is_page_length_not_total :
    (getAllSubscribers twoSubscriberTable (some true) 1 0).count = 1 ∧
    (filterSubscribers (some true) twoSubscriberTable).length = 2 ∧
    (getAllSubscribers twoSubscriberTable (some true) 1 0).count ≠
      (filterSubscribers (some true) twoSubscriberTable).length ∧
    (getAllSubscribers twoSubscriberTable (some true) 1 0).count =
      (getAllSubscribers twoSubscriberTable (some true) 1 0).data.length := by
  decide

/-! ## Get-by-id, update and delete controllers -/

/-- Envelope of a single-row endpoint. -/
structure RowResponse (α : Type) where
  status : Nat
  success : Bool
  message : Option String
  data : Option α
  deriving Repr, DecidableEq

/-- Partial update payload for a project (validated body of PUT
/projects/:id): any subset of the creation fields. -/
structure ProjectUpdate where
  title : Option String
  description : Option String
  location : Option String
  status : Option String
  images : Option (List String)
  deriving Repr, DecidableEq

/-- Empty partial update payload. -/
def emptyProjectUpdate : ProjectUpdate := ⟨none, none, none, none, none⟩

/-- Column update applied by `update(updateData)` to one row: each present
field overwrites the column, absent fields keep the stored value. -/
def applyProjectUpdate (u : ProjectUpdate) (r : Project) : Project :=
  { r with
    title := u.title.getD r.title
    description := u.description.getD r.description
    location := u.location.getD r.location
    status := u.status.getD r.status
    images := u.images.getD r.images }

/-- Single-row error envelope for `throw new AppError(msg, code)` on a
single-row endpoint. -/
def appErrorRow {α : Type} (msg : String) (code : Nat) : RowResponse α :=
  { status := code, success := false, message := some msg, data := none }

/-- Embedding of `getProjectById` (src/controllers/projectController.ts,
lines 95-106): `select().eq('id', id).single()`; `if (error || !data)`
throws `AppError('Project not found', 404)`. -/
def getProjectById (t : List Project) (id : String) : RowResponse Project :=
  match supaSingle (t.filter (fun r => r.id == id)) with
  | (none, some d) =>
      { status := 200, success := true, message := none, data := some d }
  | (_, _) =>
      { status := 404, success := false, message := some "Project not found", data := none }

/-- Embedding of `updateProject` (src/controllers/projectController.ts,
lines 224-243): `update(updateData).eq('id', id).select().single()`, then
`if (error) throw new AppError(error.message, 400)` and only afterwards
`if (!data) throw new AppError('Project not found', 404)`.  The store
updates every row matching the id (none, when the id is absent) and
`.single()` reports the PGRST116 error when the returned set is not a
single row, so the error branch fires before the not-found branch can. -/
def updateProject (t : List Project) (id : String) (u : ProjectUpdate) :
    RowResponse Project × List Project :=
  let t' := t.map (fun r => if r.id == id then applyProjectUpdate u r else r)
  match supaSingle (t'.filter (fun r => r.id == id)) with
  | (some e, _) => (appErrorRow e 400, t')
  | (none, none) =>
      ({ status := 404, success := false,
         message := some "Project not found", data := none }, t')
  | (none, some d) =>
      ({ status := 200, success := true,
         message := some "Project updated successfully", data := some d }, t')

/-- C2, behaviour of the code at the failing input: updating an id that
matches no row responds 400 with the store's single-row error message, not
404 — the route's own swagger block and the controller's dead
`if (!data)` branch declare 404 for a missing project. -/
theorem update_missing_id_responds_400_not_404 :
    (updateProject [] "p1" emptyProjectUpdate).fst.status = 400 ∧
    (updateProject [] "p1" emptyProjectUpdate).fst.status ≠ 404 ∧
    (updateProject [⟨"p2", 1, "Title here ok", "Description long enough here",
        "Lagos HQ", "in progress", []⟩] "p1" emptyProjectUpdate).fst.status = 400 := by
  decide

/-- Embedding of `deleteProject` (src/controllers/projectController.ts,
lines 267-278): `delete().eq('id', id)` with the store outcome `storeErr`;
only a store-reported error is checked — no row count. -/
def deleteProject (storeErr : Option String) (t : List Project) (id : String) :
    HttpResponse × List Project :=
  match storeErr with
  | some e => (appError e 400, t)
  | none =>
      (okResponse 200 (some "Project deleted successfully"),
        t.filter (fun r => !(r.id == id)))

/-- C7: deleting an id present in the projects store and then fetching the
same id yields 404 from the GET. -/
theorem delete_then_get_responds_404 (t : List Project) (id : String)
    (_hmem : ∃ r ∈ t, r.id = id) :
    (getProjectById (deleteProject none t id).snd id).status = 404 := by
  have hempty : ((deleteProject none t id).snd).filter (fun r => r.id == id) = [] := by
    simp only [deleteProject, List.filter_filter]
    apply List.filter_eq_nil_iff.mpr
    intro a _
    by_cases hid : a.id = id <;> simp [hid]
  simp [getProjectById, hempty, supaSingle]

/-- Witness for C7 at a concrete store. -/
theorem delete_then_get_responds_404_witness :
    (getProjectById
      (deleteProject none [⟨"p1", 1, "Title here ok", "Description long enough here",
        "Lagos HQ", "completed", []⟩] "p1").snd "p1").status = 404 :=
  delete_then_get_responds_404 _ "p1" ⟨_, List.mem_singleton_self _, rfl⟩

/-- Complaint row (table `complaints`). -/
structure Complaint where
  id : String
  created_at : Nat
  name : String
  email : String
  subject : String
  description : String
  deriving Repr, DecidableEq

/-- Newsletter template row (table `newsletter_templates`). -/
structure NewsletterTemplate where
  id : String
  created_at : Nat
  name : String
  description : Option String
  html_content : String
  thumbnail : Option String
  deriving Repr, DecidableEq

/-- Embedding of `getAllComplaints` (src/controllers/complaintController.ts,
lines 38-63): a dedicated unfiltered exact-count query (`count: exact,
head: true`) provides `count`; the data query orders by `created_at`
descending and takes the `range`/`limit` page. -/
def getAllComplaints (t : List Complaint) (limit offset : Nat) : ListResponse Complaint :=
  let totalCount := t.length
  let page := pageSlice limit offset (sortDescBy (fun r => r.created_at) t)
  { status := 200, success := true, count := totalCount, data := page }

/-- Embedding of `getTemplates` (src/controllers/newsletterController.ts,
lines 135-148): the whole table ordered by `created_at` descending — no
`range`/`limit` at all — and `count` is `data?.length || 0`.  Because
nothing is sliced off, that length is also the table's total. -/
def getTemplates (t : List NewsletterTemplate) : ListResponse NewsletterTemplate :=
  let data := sortDescBy (fun r => r.created_at) t
  { status := 200, success := true, count := data.length, data := data }

/-- Embedding of `deleteNews` (src/controllers/newsController.ts):
`delete().eq('id', id)`; only a store-reported error is checked. -/
def deleteNews (storeErr : Option String) (t : List News) (id : String) :
    HttpResponse × List News :=
  match storeErr with
  | some e => (appError e 400, t)
  | none =>
      (okResponse 200 (some "News article deleted successfully"),
        t.filter (fun r => !(r.id == id)))

/-- Embedding of `deleteComplaint` (src/controllers/complaintController.ts,
lines 182-193). -/
def deleteComplaint (storeErr : Option String) (t : List Complaint) (id : String) :
    HttpResponse × List Complaint :=
  match storeErr with
  | some e => (appError e 400, t)
  | none =>
      (okResponse 200 (some "Complaint deleted successfully"),
        t.filter (fun r => !(r.id == id)))

/-- Embedding of `deleteTemplate` (src/controllers/newsletterController.ts,
lines 300-311). -/
def deleteTemplate (storeErr : Option String) (t : List NewsletterTemplate) (id : String) :
    HttpResponse × List NewsletterTemplate :=
  match storeErr with
  | some e => (appError e 400, t)
  | none =>
      (okResponse 200 (some "Template deleted successfully"),
        t.filter (fun r => !(r.id == id)))

/-- C10: whenever the store reports no error, each of the four delete
operations responds 200 with its fixed success envelope for every table and
every id — the envelope does not depend on the table at all, so deleting a
nonexistent id is indistinguishable at the API surface from deleting an
existing one. -/
theorem delete_success_envelope_ignores_row_match
    (pt : List Project) (nt : List News) (ct : List Complaint)
    (tt : List NewsletterTemplate) (id : String) :
    (deleteProject none pt id).fst =
      okResponse 200 (some "Project deleted successfully") ∧
    (deleteNews none nt id).fst =
      okResponse 200 (some "News article deleted successfully") ∧
    (deleteComplaint none ct id).fst =
      okResponse 200 (some "Complaint deleted successfully") ∧
    (deleteTemplate none tt id).fst =
      okResponse 200 (some "Template deleted successfully") ∧
    (deleteProject none pt id).fst = (deleteProject none [] id).fst := by
  exact ⟨rfl, rfl, rfl, rfl, rfl⟩

/-! ## Newsletter bulk send (src/services/emailService.ts and
src/controllers/newsletterController.ts) -/

/-- Tally accumulated by `sendBulkEmails`. -/
structure BulkResults where
  success : Nat
  failed : Nat
  errors : List String
  deriving Repr, DecidableEq

/-- One recipient inside a batch: `sendEmail` either resolves (provider
accepts) or throws; the catch increments `failed` and records the error
string, so one recipient's failure never aborts the batch. -/
def sendBulkStep (provider : String → Bool) (r : BulkResults) (email : String) : BulkResults :=
  if provider email then
    { r with success := r.success + 1 }
  else
    { r with failed := r.failed + 1,
             errors := r.errors ++ ["Failed to send to " ++ email] }

/-- Embedding of `sendBulkEmails` (src/services/emailService.ts, lines
72-111).  The loop slices the recipients into batches of 50 and awaits every
outcome of a batch (`Promise.allSettled`) before the next; since the batches
concatenate back to the recipient list and each recipient contributes one
tally increment, the final tallies equal a single left fold over the list
(the in-batch interleaving can only permute `errors`, never the counts). -/
def sendBulkEmails (provider : String → Bool) (recipients : List String) : BulkResults :=
  recipients.foldl (sendBulkStep provider) ⟨0, 0, []⟩

/-- Newsletter campaign row (table `newsletter_campaigns`). -/
structure Campaign where
  subject : String
  html_content : String
  sent_to_count : Nat
  failed_count : Nat
  status : String
  deriving Repr, DecidableEq

/-- Embedding of `getCampaigns` (src/controllers/newsletterController.ts,
lines 336-353): ordered by the store-assigned `created_at` descending —
the reverse of insertion order, the store stamping each row at insert
time — then the `range`/`limit` page, with `count` set to
`data?.length || 0`, the page length. -/
def getCampaigns (t : List Campaign) (limit offset : Nat) : ListResponse Campaign :=
  let page := pageSlice limit offset t.reverse
  { status := 200, success := true, count := page.length, data := page }

/-- C1, amended: the projects, news, and complaints list operations report
as `count` the server-side total of rows matching the filter (a dedicated
exact-count query), independent of `limit`/`offset`, and with
`status=completed` the projects `data` holds only rows whose status is
`completed`; the templates list carries no pagination, so its `count` — the
returned list's length — also equals the whole table's total; the
subscribers and campaigns lists instead report the returned page's length
as `count`, always equal to `data.length`. -/
theorem list_count_semantics (t : List Project) (limit offset : Nat) :
    ((getAllProjects t (some "completed") limit offset).count =
      (t.filter (fun r => r.status == "completed")).length ∧
      ∀ r ∈ (getAllProjects t (some "completed") limit offset).data,
        r.status = "completed") ∧
    (∀ statusQ : Option String,
      (getAllProjects t statusQ limit offset).count =
        (filterProjectsByStatus statusQ t).length) ∧
    (∀ (nt : List News) (l o : Nat), (getAllNews nt l o).count = nt.length) ∧
    (∀ (ct : List Complaint) (l o : Nat), (getAllComplaints ct l o).count = ct.length) ∧
    (∀ tt : List NewsletterTemplate,
      (getTemplates tt).count = tt.length ∧
      (getTemplates tt).count = (getTemplates tt).data.length) ∧
    (∀ (st : List Subscriber) (q : Option Bool) (l o : Nat),
      (getAllSubscribers st q l o).count = (getAllSubscribers st q l o).data.length) ∧
    (∀ (cam : List Campaign) (l o : Nat),
      (getCampaigns cam l o).count = (getCampaigns cam l o).data.length) := by
  refine ⟨⟨rfl, ?_⟩, fun _ => rfl, fun _ _ _ => rfl, fun _ _ _ => rfl,
    fun tt => ⟨?_, rfl⟩, fun _ _ _ _ => rfl, fun _ _ _ => rfl⟩
  · intro r hr
    have h1 : r ∈ sortDescBy (fun r => r.created_at)
        (filterProjectsByStatus (some "completed") t) := mem_pageSlice _ _ _ _ hr
    have h2 : r ∈ filterProjectsByStatus (some "completed") t :=
      (mem_sortDescBy _ _ _).mp h1
    have h3 : r ∈ t.filter (fun r => r.status == "completed") := h2
    have h4 := List.of_mem_filter h3
    exact eq_of_beq h4
  · simp only [getTemplates]
    exact length_sortDescBy (fun r => r.created_at) tt

/-- Embedding of the `recipientType=all` path of `sendNewsletter`
(src/controllers/newsletterController.ts, lines 47-121): falsy subject or
content give 400; an unverifiable mail channel gives 500; the subscribers
query selects the emails of rows with `subscribed = true`; an empty
recipient set gives 404 before any send; otherwise the bulk tally is
computed and exactly one campaign row is inserted (the controller discards
the insert's error object, so the store is modelled as accepting it) with
the raw `htmlContent` and status `completed` when nothing failed, else
`partial`. -/
def sendNewsletterAll (connected : Bool) (provider : String → Bool)
    (subs : List Subscriber) (subject htmlContent : String)
    (campaigns : List Campaign) : HttpResponse × List Campaign :=
  if subject == "" || htmlContent == "" then
    (appError "Subject and content are required" 400, campaigns)
  else if !connected then
    (appError "Email service not configured properly. Please check your email settings." 500,
      campaigns)
  else
    let emails := (subs.filter (fun r => r.subscribed)).map (fun r => r.email)
    if emails.isEmpty then
      (appError "No active subscribers found" 404, campaigns)
    else
      let results := sendBulkEmails provider emails
      let row : Campaign :=
        { subject := subject, html_content := htmlContent,
          sent_to_count := results.success, failed_count := results.failed,
          status := if results.failed = 0 then "completed" else "partial" }
      (okResponse 200 (some "Newsletter sent successfully"), campaigns ++ [row])

theorem sendBulkEmails_foldl_tally (provider : String → Bool) :
    ∀ (emails : List String) (s f : Nat) (errs : List String),
    ((emails.foldl (sendBulkStep provider) ⟨s, f, errs⟩).success =
      s + (emails.filter provider).length) ∧
    ((emails.foldl (sendBulkStep provider) ⟨s, f, errs⟩).failed =
      f + (emails.filter (fun e => !provider e)).length)
  | [], s, f, errs => by simp
  | e :: es, s, f, errs => by
    by_cases hp : provider e
    · have hstep : sendBulkStep provider ⟨s, f, errs⟩ e = ⟨s + 1, f, errs⟩ := by
        simp [sendBulkStep, hp]
      have ih := sendBulkEmails_foldl_tally provider es (s + 1) f errs
      rw [List.foldl_cons, hstep]
      refine ⟨?_, ?_⟩
      · rw [ih.1]; simp [hp]; omega
      · rw [ih.2]; simp [hp]
    · have hstep : sendBulkStep provider ⟨s, f, errs⟩ e =
          ⟨s, f + 1, errs ++ ["Failed to send to " ++ e]⟩ := by
        simp [sendBulkStep, hp]
      have ih := sendBulkEmails_foldl_tally provider es s (f + 1)
        (errs ++ ["Failed to send to " ++ e])
      rw [List.foldl_cons, hstep]
      refine ⟨?_, ?_⟩
      · rw [ih.1]; simp [hp]
      · rw [ih.2]; simp [hp]; omega

theorem sendBulkEmails_tally (provider : String → Bool) (emails : List String) :
    (sendBulkEmails provider emails).success =
      emails.length - (emails.filter (fun e => !provider e)).length ∧
    (sendBulkEmails provider emails).failed =
      (emails.filter (fun e => !provider e)).length := by
  have h := sendBulkEmails_foldl_tally provider emails 0 0 []
  have h1 : (sendBulkEmails provider emails).success = (emails.filter provider).length := by
    rw [sendBulkEmails, h.1]; omega
  have h2 : (sendBulkEmails provider emails).failed =
      (emails.filter (fun e => !provider e)).length := by
    rw [sendBulkEmails, h.2]; omega
  have hsplit : ∀ l : List String,
      (l.filter provider).length + (l.filter (fun e => !provider e)).length = l.length := by
    intro l
    induction l with
    | nil => simp
    | cons e es ih =>
      by_cases hp : provider e <;> simp [hp] <;> omega
  have := hsplit emails
  exact ⟨by omega, h2⟩

/-- C4, amended: a bulk send that reaches the provider (nonempty subject and
content, verified channel, at least one subscribed address) against the `N`
subscribed addresses, `M` of which the provider rejects, persists exactly
one campaign row with `sent_to_count = N - M`, `failed_count = M` and status
`completed` when `M = 0`, `partial` when `M > 0`; the send responds 200 for
every provider behaviour, so no recipient's failure aborts the batch or the
send. -/
theorem bulk_send_records_one_campaign (connected : Bool) (provider : String → Bool)
    (subs : List Subscriber) (subject htmlContent : String) (campaigns : List Campaign)
    (hconn : connected = true)
    (hsubj : subject ≠ "") (hhtml : htmlContent ≠ "")
    (hsome : (subs.filter (fun r => r.subscribed)).map (fun r => r.email) ≠ []) :
    (sendNewsletterAll connected provider subs subject htmlContent campaigns).snd =
      campaigns ++
        [{ subject := subject, html_content := htmlContent,
           sent_to_count :=
             ((subs.filter (fun r => r.subscribed)).map (fun r => r.email)).length -
               (((subs.filter (fun r => r.subscribed)).map (fun r => r.email)).filter
                 (fun e => !provider e)).length,
           failed_count :=
             (((subs.filter (fun r => r.subscribed)).map (fun r => r.email)).filter
               (fun e => !provider e)).length,
           status :=
             if (((subs.filter (fun r => r.subscribed)).map (fun r => r.email)).filter
                 (fun e => !provider e)).length = 0 then "completed" else "partial" }] ∧
    (sendNewsletterAll connected provider subs subject htmlContent campaigns).fst.status = 200 := by
  subst hconn
  have hs : (subject == "") = false := by simpa using hsubj
  have hh : (htmlContent == "") = false := by simpa using hhtml
  have hem : ((subs.filter (fun r => r.subscribed)).map (fun r => r.email)).isEmpty = false := by
    simpa [List.isEmpty_iff] using hsome
  have htally := sendBulkEmails_tally provider
    ((subs.filter (fun r => r.subscribed)).map (fun r => r.email))
  constructor
  · simp only [sendNewsletterAll, hs, hh, Bool.or_self, Bool.not_true, hem,
      Bool.false_or, if_neg, reduceIte]
    rw [htally.1, htally.2]
    simp [Nat.beq_eq]
  · simp [sendNewsletterAll, hs, hh, hem, okResponse]

/-- Witness for the amended C4 at a concrete store: two subscribed
addresses, the provider rejecting one of them. -/
theorem bulk_send_records_one_campaign_witness :
    (sendNewsletterAll true (fun e => !(e == "b@example.com"))
        twoSubscriberTable "Monthly update" "<p>News</p>" []).snd =
      [{ subject := "Monthly update", html_content := "<p>News</p>",
         sent_to_count := 1, failed_count := 1, status := "partial" }] ∧
    (sendNewsletterAll true (fun e => !(e == "b@example.com"))
        twoSubscriberTable "Monthly update" "<p>News</p>" []).fst.status = 200 := by
  have h := bulk_send_records_one_campaign true (fun e => !(e == "b@example.com"))
    twoSubscriberTable "Monthly update" "<p>News</p>" []
    rfl (by decide) (by decide) (by decide)
  exact ⟨by rw [h.1]; decide, h.2⟩

/-- C4, counterexample: a bulk send with `recipientType=all` against `N = 0`
subscribed addresses (one unsubscribed row in the store, verified channel,
`M = 0`) persists no campaign row at all and responds 404, where the claim
demands exactly one persisted row with `sent_to_count = 0` and status
`completed`. -/
theorem bulk_send_zero_subscribers_records_nothing :
    (sendNewsletterAll true (fun _ => true)
        [⟨"a@example.com", false, 1⟩] "Monthly update" "<p>News</p>" []).snd = [] ∧
    (sendNewsletterAll true (fun _ => true)
        [⟨"a@example.com", false, 1⟩] "Monthly update" "<p>News</p>" []).fst.status = 404 := by
  decide

/-! ## Subscribe / unsubscribe (src/controllers/subscriberController.ts) -/

/-- Store effect of `update({ subscribed: b }).eq('email', email)`: every
row whose email matches gets its flag overwritten. -/
def setSub (b : Bool) (email : String) (t : List Subscriber) : List Subscriber :=
  t.map (fun r => if r.email == email then { r with subscribed := b } else r)

/-- Number of subscriber rows stored for an email. -/
def countEmail (t : List Subscriber) (email : String) : Nat :=
  (t.filter (fun r => r.email == email)).length

/-- Embedding of `subscribe` (src/controllers/subscriberController.ts,
lines 124-171).  The existence probe `select().eq('email', email).single()`
discards the error object, so `existing` is the row when exactly one row
matches and null otherwise.  An existing subscribed row gives 400 and no
write; an existing unsubscribed row is re-subscribed via
`update({subscribed: true}).eq('email', email)` (200); an absent email is
inserted with `subscribed: true` (201) — the store schema declares the email
column UNIQUE, so an insert that would duplicate an email is a
store-reported error mapped to 400. -/
def subscribe (t : List Subscriber) (email : String) (now : Nat) :
    RowResponse Subscriber × List Subscriber :=
  match (supaSingle (t.filter (fun r => r.email == email))).snd with
  | some ex =>
    if ex.subscribed then
      (appErrorRow "Email is already subscribed to the newsletter" 400, t)
    else
      let t' := setSub true email t
      ((match supaSingle (t'.filter (fun r => r.email == email)) with
        | (some e, _) => appErrorRow e 400
        | (none, d) =>
            { status := 200, success := true,
              message := some "Successfully resubscribed to the newsletter", data := d }), t')
  | none =>
    if t.any (fun r => r.email == email) then
      (appErrorRow "duplicate key value violates unique constraint" 400, t)
    else
      ({ status := 201, success := true,
         message := some "Successfully subscribed to the newsletter",
         data := some ⟨email, true, now⟩ }, t ++ [⟨email, true, now⟩])

/-- Embedding of `unsubscribe` (src/controllers/subscriberController.ts,
lines 198-216): `update({subscribed: false}).eq('email', email).select()
.single()`; `if (error || !data)` gives 404, otherwise 200.  The store
update happens regardless of the response branch. -/
def unsubscribe (t : List Subscriber) (email : String) :
    RowResponse Subscriber × List Subscriber :=
  let t' := setSub false email t
  ((match supaSingle (t'.filter (fun r => r.email == email)) with
    | (none, some d) =>
        { status := 200, success := true,
          message := some "Successfully unsubscribed from the newsletter", data := some d }
    | (_, _) => appErrorRow "Email not found in our newsletter list" 404), t')

theorem filter_map_of_pres {α : Type} (p : α → Bool) (f : α → α)
    (hf : ∀ a, p (f a) = p a) (l : List α) :
    (l.map f).filter p = (l.filter p).map f := by
  induction l with
  | nil => rfl
  | cons a l ih =>
    simp only [List.map_cons, List.filter_cons, hf]
    by_cases hp : p a
    · simp only [hp, if_true, List.map_cons, ih]
    · simp only [hp, Bool.false_eq_true, if_false, ih]

theorem filter_setSub (b : Bool) (email : String) (t : List Subscriber) :
    (setSub b email t).filter (fun r => r.email == email) =
      (t.filter (fun r => r.email == email)).map
        (fun r => if r.email == email then { r with subscribed := b } else r) := by
  apply filter_map_of_pres
  intro a
  by_cases h : a.email == email
  · simp [h]
  · simp [h]

theorem mem_setSub_email (b : Bool) (email : String) (t : List Subscriber)
    (r' : Subscriber) (hr' : r' ∈ setSub b email t) (he : r'.email = email) :
    r'.subscribed = b := by
  simp only [setSub] at hr'
  rcases List.mem_map.mp hr' with ⟨x, _, hfx⟩
  by_cases hxe : x.email == email
  · rw [← hfx]
    simp [hxe]
  · rw [← hfx] at he
    simp [hxe] at he
    simp at hxe
    exact absurd he hxe

theorem eq_singleton_of_length_le_one {α : Type} (l : List α) (a : α)
    (h : l.length ≤ 1) (ha : a ∈ l) : l = [a] := by
  match l with
  | [] => cases ha
  | [x] => rw [List.mem_singleton.mp ha]
  | x :: y :: rest => simp at h

theorem subscribe_resub_of_single_unsubscribed (t : List Subscriber)
    (email : String) (now : Nat) (r : Subscriber)
    (hfilter : t.filter (fun x => x.email == email) = [r])
    (hsub : r.subscribed = false) :
    (subscribe t email now).fst.status = 200 ∧
    (subscribe t email now).snd = setSub true email t ∧
    countEmail (subscribe t email now).snd email = 1 ∧
    ∀ r' ∈ (subscribe t email now).snd, r'.email = email → r'.subscribed = true := by
  have hre : (r.email == email) = true := by
    have hmem : r ∈ t.filter (fun x => x.email == email) := by
      rw [hfilter]
      exact List.mem_singleton_self r
    exact (List.mem_filter.mp hmem).2
  have hfilter' : (setSub true email t).filter (fun x => x.email == email) =
      [{ r with subscribed := true }] := by
    rw [filter_setSub, hfilter]
    simp [hre]
    intro hne
    exact absurd (by simpa using hre) hne
  have hsubeq : subscribe t email now =
      ({ status := 200, success := true,
         message := some "Successfully resubscribed to the newsletter",
         data := some { r with subscribed := true } }, setSub true email t) := by
    unfold subscribe
    rw [hfilter]
    simp only [supaSingle, hsub, Bool.false_eq_true, if_false, hfilter']
  rw [hsubeq]
  refine ⟨rfl, rfl, ?_, ?_⟩
  · simp only [countEmail, hfilter']
    rfl
  · intro r' hr' he
    exact mem_setSub_email true email t r' hr' he

/-- C5: under the store's uniqueness of subscriber emails (at most one row
per email), subscribing an existing unsubscribed email succeeds (200) and
leaves exactly one row for it, subscribed; subscribing an existing
subscribed email responds 400 and changes no state; subscribing an absent
email inserts exactly one new subscribed row (201); and for any stored
email, unsubscribe followed by resubscribe succeeds (200) and leaves
exactly one subscribed row for that email. -/
theorem subscribe_semantics (t : List Subscriber) (email : String) (now : Nat)
    (huniq : countEmail t email ≤ 1) :
    (∀ r ∈ t, r.email = email → r.subscribed = false →
      (subscribe t email now).fst.status = 200 ∧
      countEmail (subscribe t email now).snd email = 1 ∧
      ∀ r' ∈ (subscribe t email now).snd, r'.email = email → r'.subscribed = true) ∧
    (∀ r ∈ t, r.email = email → r.subscribed = true →
      (subscribe t email now).fst.status = 400 ∧ (subscribe t email now).snd = t) ∧
    ((∀ r ∈ t, r.email ≠ email) →
      (subscribe t email now).fst.status = 201 ∧
      (subscribe t email now).snd = t ++ [⟨email, true, now⟩] ∧
      countEmail (subscribe t email now).snd email = 1) ∧
    (∀ r ∈ t, r.email = email →
      (subscribe (unsubscribe t email).snd email now).fst.status = 200 ∧
      countEmail (subscribe (unsubscribe t email).snd email now).snd email = 1 ∧
      ∀ r' ∈ (subscribe (unsubscribe t email).snd email now).snd,
        r'.email = email → r'.subscribed = true) := by
  refine ⟨?_, ?_, ?_, ?_⟩
  · intro r hr he hsub
    have hfilter : t.filter (fun x => x.email == email) = [r] :=
      eq_singleton_of_length_le_one _ _ huniq
        (List.mem_filter.mpr ⟨hr, by simp [he]⟩)
    have h := subscribe_resub_of_single_unsubscribed t email now r hfilter hsub
    exact ⟨h.1, h.2.2.1, h.2.2.2⟩
  · intro r hr he hsub
    have hfilter : t.filter (fun x => x.email == email) = [r] :=
      eq_singleton_of_length_le_one _ _ huniq
        (List.mem_filter.mpr ⟨hr, by simp [he]⟩)
    have hsubeq : subscribe t email now =
        (appErrorRow "Email is already subscribed to the newsletter" 400, t) := by
      unfold subscribe
      rw [hfilter]
      simp only [supaSingle, hsub, if_true]
    rw [hsubeq]
    exact ⟨rfl, rfl⟩
  · intro hall
    have hfilter0 : t.filter (fun x => x.email == email) = [] := by
      apply List.filter_eq_nil_iff.mpr
      intro a ha
      simpa using hall a ha
    have hany : t.any (fun r => r.email == email) = false := by
      simp only [List.any_eq_false]
      intro a ha
      simpa using hall a ha
    have hsubeq : subscribe t email now =
        ({ status := 201, success := true,
           message := some "Successfully subscribed to the newsletter",
           data := some ⟨email, true, now⟩ }, t ++ [⟨email, true, now⟩]) := by
      unfold subscribe
      rw [hfilter0]
      simp only [supaSingle, hany, Bool.false_eq_true, if_false]
    rw [hsubeq]
    refine ⟨rfl, rfl, ?_⟩
    simp only [countEmail, List.filter_append, hfilter0]
    simp
  · intro r hr he
    have hfilter : t.filter (fun x => x.email == email) = [r] :=
      eq_singleton_of_length_le_one _ _ huniq
        (List.mem_filter.mpr ⟨hr, by simp [he]⟩)
    have hsnd : (unsubscribe t email).snd = setSub false email t := rfl
    have hre : (r.email == email) = true := by
      have hmem : r ∈ t.filter (fun x => x.email == email) := by
        rw [hfilter]
        exact List.mem_singleton_self r
      exact (List.mem_filter.mp hmem).2
    have hfilter1 : (setSub false email t).filter (fun x => x.email == email) =
        [{ r with subscribed := false }] := by
      rw [filter_setSub, hfilter]
      simp [hre]
      intro hne
      exact absurd (by simpa using hre) hne
    have h := subscribe_resub_of_single_unsubscribed (setSub false email t)
      email now { r with subscribed := false } hfilter1 rfl
    rw [hsnd]
    exact ⟨h.1, h.2.2.1, h.2.2.2⟩

/-- Witness for C5 at a concrete store: one already-subscribed row gives
400 and no state change on a second subscribe. -/
theorem subscribe_semantics_witness :
    (subscribe [⟨"a@example.com", true, 2⟩] "a@example.com" 5).fst.status = 400 ∧
    (subscribe [⟨"a@example.com", true, 2⟩] "a@example.com" 5).snd =
      [⟨"a@example.com", true, 2⟩] :=
  (subscribe_semantics [⟨"a@example.com", true, 2⟩] "a@example.com" 5
      (by decide)).2.1
    ⟨"a@example.com", true, 2⟩ (List.mem_singleton_self _) rfl rfl

/-! ## Validation schemas (zod, src/middleware/validation) -/

/-- Candidate request body for project creation / partial update: any
subset of the creation schema's fields may be present. -/
structure ProjectInput where
  title : Option String
  description : Option String
  location : Option String
  status : Option String
  images : Option (List String)
  deriving Repr, DecidableEq

/-- Body with no field present (the empty subset). -/
def emptyProjectInput : ProjectInput := ⟨none, none, none, none, none⟩

/-- Field schema `z.string().min(10).max(200)` of `title`. -/
def titleOk (s : String) : Bool := 10 ≤ s.length && s.length ≤ 200

/-- Field schema `z.string().min(20).max(10000)` of `description`. -/
def descriptionOk (s : String) : Bool := 20 ≤ s.length && s.length ≤ 10000

/-- Field schema `z.string().min(5).max(200)` of `location`. -/
def locationOk (s : String) : Bool := 5 ≤ s.length && s.length ≤ 200

/-- Field schema `z.enum(['in progress', 'completed'])` of `status`. -/
def statusOk (s : String) : Bool := s == "in progress" || s == "completed"

/-- Field schema `z.array(z.string().url()).max(6)` of `images`; the URL
format check of `z.string().url()` is abstracted as a parameter, shared by
both schemas. -/
def imagesOk (isUrl : String → Bool) (l : List String) : Bool :=
  l.length ≤ 6 && l.all isUrl

/-- Embedding of `createProjectSchema`: `title`, `description` and
`location` are required; `status` and `images` carry defaults, so an absent
value is accepted and a present value is checked. -/
def createProjectValid (isUrl : String → Bool) (o : ProjectInput) : Bool :=
  (match o.title with | some s => titleOk s | none => false) &&
  (match o.description with | some s => descriptionOk s | none => false) &&
  (match o.location with | some s => locationOk s | none => false) &&
  (match o.status with | some s => statusOk s | none => true) &&
  (match o.images with | some l => imagesOk isUrl l | none => true)

/-- Embedding of `updateProjectSchema = createProjectSchema.partial()`:
every field optional, each present field checked by the same field schema
the creation schema uses. -/
def updateProjectValid (isUrl : String → Bool) (o : ProjectInput) : Bool :=
  (match o.title with | some s => titleOk s | none => true) &&
  (match o.description with | some s => descriptionOk s | none => true) &&
  (match o.location with | some s => locationOk s | none => true) &&
  (match o.status with | some s => statusOk s | none => true) &&
  (match o.images with | some l => imagesOk isUrl l | none => true)

/-- C8: the partial-update schema accepts an object exactly when each field
that is present satisfies the same per-field constraint as in the creation
schema (the shared field checkers above), it accepts the empty subset, and
on objects carrying all three required fields it agrees with the creation
schema. -/
theorem partial_schema_accepts_same_field_constraints
    (isUrl : String → Bool) (o : ProjectInput) :
    (updateProjectValid isUrl o = true ↔
      ((∀ s, o.title = some s → titleOk s = true) ∧
       (∀ s, o.description = some s → descriptionOk s = true) ∧
       (∀ s, o.location = some s → locationOk s = true) ∧
       (∀ s, o.status = some s → statusOk s = true) ∧
       (∀ l, o.images = some l → imagesOk isUrl l = true))) ∧
    updateProjectValid isUrl emptyProjectInput = true ∧
    (o.title.isSome → o.description.isSome → o.location.isSome →
      updateProjectValid isUrl o = createProjectValid isUrl o) := by
  obtain ⟨t, d, l, st, im⟩ := o
  refine ⟨?_, rfl, ?_⟩
  · cases t <;> cases d <;> cases l <;> cases st <;> cases im <;>
      simp [updateProjectValid, and_assoc]
  · cases t <;> cases d <;> cases l <;>
      simp [updateProjectValid, createProjectValid]

/-! ## Scheduled liveness pinger (src/services/keepalive.ts) -/

/-- Report of one firing of `performKeepAlive`: which of the two checks
ran, the failure the catch block logged (if any), and the error that
escaped the firing — always `none`, because the body is one try/catch. -/
structure FiringReport where
  serverCheckRun : Bool
  dbCheckRun : Bool
  failureLogged : Option String
  escaped : Option String
  deriving Repr, DecidableEq

/-- Embedding of `pingServer`: `fetch(serverUrl + '/health')`; a non-ok
response status throws, the local catch logs and rethrows. -/
def pingServer (healthOk : Bool) (healthStatus : Nat) : Except String Unit :=
  if healthOk then .ok () else
    .error ("Server ping failed with status: " ++ toString healthStatus)

/-- Embedding of `pingDatabase`: `from('projects').select('id').limit(1)`;
a store error is rethrown unless its code is PGRST116 (empty result),
which is tolerated. -/
def pingDatabase (dbError : Option (String × String)) : Except String Unit :=
  match dbError with
  | some (code, msg) => if code = "PGRST116" then .ok () else .error msg
  | none => .ok ()

/-- Rows fetched by the database check: `select('id').limit(1)`. -/
def dbPingRows (t : List Project) : List String :=
  (t.map (fun r => r.id)).take 1

/-- Embedding of `performKeepAlive` (src/services/keepalive.ts, lines
33-45): `await pingServer(); await pingDatabase();` inside one try whose
catch only logs.  A server-check failure therefore skips the database
check; no failure escapes the firing. -/
def performKeepAlive (healthOk : Bool) (healthStatus : Nat)
    (dbError : Option (String × String)) : FiringReport :=
  match pingServer healthOk healthStatus with
  | .error e =>
      { serverCheckRun := true, dbCheckRun := false,
        failureLogged := some e, escaped := none }
  | .ok _ =>
      match pingDatabase dbError with
      | .error e =>
          { serverCheckRun := true, dbCheckRun := true,
            failureLogged := some e, escaped := none }
      | .ok _ =>
          { serverCheckRun := true, dbCheckRun := true,
            failureLogged := none, escaped := none }

/-- C9, counterexample: in the firing where the HTTP health check fails,
the database check is not performed at all — the two checks are sequential
inside one try, not independent — so the claim that every firing performs
both checks is false at this firing (the failure itself is still caught,
not propagated). -/
theorem keepalive_failed_server_skips_db_check :
    (performKeepAlive false 500 none).dbCheckRun = false ∧
    (performKeepAlive false 500 none).escaped = none := by
  decide

/-- C9, amended: every firing runs the HTTP health check and, only when it
succeeds, the at-most-one-row store read; any failure in either check is
caught and logged by the firing's catch block and never escapes it (hence
it cannot crash the process or disturb the next scheduled firing), and
nothing is logged as a failure exactly when both checks succeed. -/
theorem keepalive_firing_catches_all_failures (healthOk : Bool)
    (healthStatus : Nat) (dbError : Option (String × String)) :
    (performKeepAlive healthOk healthStatus dbError).escaped = none ∧
    (performKeepAlive healthOk healthStatus dbError).serverCheckRun = true ∧
    (healthOk = true → (performKeepAlive healthOk healthStatus dbError).dbCheckRun = true) ∧
    ((performKeepAlive healthOk healthStatus dbError).failureLogged = none ↔
      (pingServer healthOk healthStatus = .ok () ∧ pingDatabase dbError = .ok ())) ∧
    (∀ t : List Project, (dbPingRows t).length ≤ 1) := by
  refine ⟨?_, ?_, ?_, ?_, ?_⟩
  · cases healthOk
    · rfl
    · rcases dbError with _ | ⟨code, msg⟩
      · rfl
      · by_cases hc : code = "PGRST116" <;>
          simp [performKeepAlive, pingServer, pingDatabase, hc]
  · cases healthOk
    · rfl
    · rcases dbError with _ | ⟨code, msg⟩
      · rfl
      · by_cases hc : code = "PGRST116" <;>
          simp [performKeepAlive, pingServer, pingDatabase, hc]
  · intro hh
    subst hh
    rcases dbError with _ | ⟨code, msg⟩
    · rfl
    · by_cases hc : code = "PGRST116" <;>
        simp [performKeepAlive, pingServer, pingDatabase, hc]
  · cases healthOk
    · simp [performKeepAlive, pingServer, pingDatabase]
    · rcases dbError with _ | ⟨code, msg⟩
      · simp [performKeepAlive, pingServer, pingDatabase]
      · by_cases hc : code = "PGRST116" <;>
          simp [performKeepAlive, pingServer, pingDatabase, hc]
  · intro t
    simp only [dbPingRows]
    exact List.length_take_le 1 (t.map (fun r => r.id))

end LPress
